import Mathlib

/-!
# GoNeoCam: the HTTP front end of the Neoden camera driver

A shallow embedding of `server.go`.  The program is a request router: every
handler reads the route variables of the request, parses them with
`strconv.Atoi`, checks the camera id and forwards the numbers to one procedure
of the camera DLL.

Conventions of the embedding:

* a Go `string` is the list of its bytes (`GoString`);
* a Go `int` is an `Int`; the width of the machine word (`strconv.IntSize`,
  32 or 64) is the parameter `bits`, and every place where the Go code can
  wrap around is written with `wrapInt` or `uintptr`;
* effects are explicit: a handler returns the list of driver calls it made
  together with what the HTTP client gets (a response, or nothing when the
  handler panicked);
* the camera DLL is the record `Driver`: the word each procedure returns and
  the bytes `img_readAsy` stores in the buffer it is handed; the DLL and its
  procedures are taken to be present, and the driver writes inside the
  buffer only;
* `log.Printf` output is not part of the model.
-/

namespace GoNeoCam

/-! ## Machine words -/

/-- Value of `x` read as a signed two's-complement word of `bits` bits. -/
def wrapInt (bits : Nat) (x : Int) : Int :=
  (x + 2 ^ (bits - 1)) % 2 ^ bits - 2 ^ (bits - 1)

/-- The conversion `uintptr(x)` of a Go `int`. -/
def uintptr (bits : Nat) (x : Int) : Nat :=
  (x % 2 ^ bits).toNat

/-- The conversion `int(ret)` of a `uintptr`. -/
def intOfUintptr (bits : Nat) (ret : Nat) : Int :=
  wrapInt bits ret

/-- Largest Go `int`. -/
def maxInt (bits : Nat) : Int := 2 ^ (bits - 1) - 1

/-- Smallest Go `int`. -/
def minInt (bits : Nat) : Int := -(2 ^ (bits - 1))

/-! ## Strings and `strconv.Atoi` -/

/-- A Go string: its bytes. -/
abbrev GoString := List Nat

/-- Bytes of an ASCII literal. -/
def ascii (s : String) : GoString :=
  s.data.map Char.toNat

/-- The two errors of package `strconv` that `Atoi` can report. -/
inductive NumError where
  | ErrSyntax
  | ErrRange
  deriving DecidableEq, Repr

/-- The helper `lower(c)` of `strconv`: `c | 0x20`. -/
def lower (c : Nat) : Nat := c ||| 32

/-- The constant `maxUint64`. -/
def maxUint64 : Nat := 2 ^ 64 - 1

/-- Value of one byte as a digit in `ParseUint`; `none` is the `default` case
of the switch (a syntax error). -/
def digitVal (c : Nat) : Option Nat :=
  if 48 ≤ c ∧ c ≤ 57 then some (c - 48)
  else if 97 ≤ lower c ∧ lower c ≤ 122 then some (lower c - 97 + 10)
  else none

/-- The loop of `strconv.ParseUint` for base 10: `n` is the accumulator,
`maxVal` is `1<<bitSize - 1`. -/
def parseUintLoop (maxVal : Nat) : List Nat → Nat → Nat × Option NumError
  | [], n => (n, none)
  | c :: cs, n =>
    match digitVal c with
    | none => (0, some NumError.ErrSyntax)
    | some d =>
      if d ≥ 10 then (0, some NumError.ErrSyntax)
      else if n ≥ maxUint64 / 10 + 1 then (maxVal, some NumError.ErrRange)
      else
        let n10 := (n * 10) % 2 ^ 64
        let n1 := (n10 + d) % 2 ^ 64
        if n1 < n10 ∨ n1 > maxVal then (maxVal, some NumError.ErrRange)
        else parseUintLoop maxVal cs n1

/-- The call `strconv.ParseUint(s, 10, 0)` on a platform with `bits`-bit
words; `maxVal` is computed in `uint64` as in the source. -/
def ParseUint (bits : Nat) (s : GoString) : Nat × Option NumError :=
  if s = [] then (0, some NumError.ErrSyntax)
  else parseUintLoop ((2 ^ bits % 2 ^ 64 + 2 ^ 64 - 1) % 2 ^ 64) s 0

/-- Second half of `strconv.ParseInt(s, 10, 0)`: what it makes of the result
`p` of `ParseUint` once the sign has been picked off.  The result is an
`int64`, so the conversions wrap at 64 bits. -/
def parseIntCheck (bits : Nat) (neg : Bool) (p : Nat × Option NumError) :
    Int × Option NumError :=
  match p with
  | (_, some NumError.ErrSyntax) => (0, some NumError.ErrSyntax)
  | (un, _) =>
    let cutoff : Nat := 2 ^ (bits - 1) % 2 ^ 64
    if neg = false ∧ un ≥ cutoff then
      (wrapInt 64 ((cutoff + 2 ^ 64 - 1) % 2 ^ 64 : Nat), some NumError.ErrRange)
    else if neg = true ∧ un > cutoff then
      (wrapInt 64 (-(wrapInt 64 cutoff)), some NumError.ErrRange)
    else
      (if neg then wrapInt 64 (-(wrapInt 64 un)) else wrapInt 64 un, none)

/-- The call `strconv.ParseInt(s, 10, 0)`: a leading `+` (43) or `-` (45) is
picked off, the rest goes to `ParseUint`. -/
def ParseInt (bits : Nat) (s : GoString) : Int × Option NumError :=
  match s with
  | [] => (0, some NumError.ErrSyntax)
  | c :: cs =>
    parseIntCheck bits (decide (c = 45))
      (ParseUint bits (if c = 43 then cs else if c = 45 then cs else c :: cs))

/-- The loop of the fast path of `strconv.Atoi`; `none` is the syntax error.
The byte subtraction `ch -= 48` wraps modulo 256. -/
def atoiFastLoop : List Nat → Int → Option Int
  | [], n => some n
  | ch :: cs, n =>
    let d := (ch + 256 - 48) % 256
    if d > 9 then none else atoiFastLoop cs (n * 10 + d)

/-- The fast path of `strconv.Atoi`, taken for short inputs (at most 9 or 18
digits, so the accumulator cannot overflow). -/
def atoiFast (s : GoString) : Int × Option NumError :=
  let body : GoString :=
    if s.head? = some 45 ∨ s.head? = some 43 then s.tail else s
  if body.length < 1 then (0, some NumError.ErrSyntax)
  else
    match atoiFastLoop body 0 with
    | none => (0, some NumError.ErrSyntax)
    | some n => (if s.head? = some 45 then -n else n, none)

/-- The function `strconv.Atoi` on a platform whose `int` has `bits` bits: the
value and the error it returns.  Short inputs take the fast path; everything
else goes through `ParseInt(s, 10, 0)` and is converted with `int(i64)`. -/
def Atoi (bits : Nat) (s : GoString) : Int × Option NumError :=
  if (bits = 32 ∧ 0 < s.length ∧ s.length < 10) ∨
      (bits = 64 ∧ 0 < s.length ∧ s.length < 19) then
    atoiFast s
  else
    (wrapInt bits (ParseInt bits s).1, (ParseInt bits s).2)

/-! ## The camera DLL -/

/-- One argument of a DLL call: a machine word, or the address of the first
byte of a buffer (recorded with the contents the buffer has at the call). -/
inductive Arg where
  | word (v : Nat)
  | buf (bytes : List Nat)
  deriving DecidableEq, Repr

/-- One call `mod.NewProc(proc).Call(args...)`. -/
structure DriverCall where
  proc : String
  args : List Arg
  deriving DecidableEq, Repr

/-- The camera DLL as the program sees it: `ret` is the first result word of
a call, `fill` the byte the procedure stores at each offset of the buffer it
was handed. -/
structure Driver where
  ret : DriverCall → Nat
  fill : DriverCall → Nat → Nat

/-- Run-time panics of the Go code paths modelled here. -/
inductive Panic where
  | makeslice
  | indexOutOfRange
  | sliceBounds
  | hugeImage
  deriving DecidableEq, Repr

/-- The constant `maxAlloc` of the Go runtime, the largest size `makeslice`
accepts: 2^48 bytes on a 64-bit platform, 2^32 - 1 on a 32-bit one. -/
def maxAlloc (bits : Nat) : Int :=
  if bits = 64 then 2 ^ 48 else 2 ^ 32 - 1

/-- The expression `make([]byte, n, n)`: `makeslice` panics with `len out of
range` when `n` is negative or exceeds `maxAlloc`.  Exhaustion of the memory
of the machine below that limit is not modelled. -/
def makeBytes (bits : Nat) (n : Int) : Except Panic (List Nat) :=
  if n < 0 ∨ n > maxAlloc bits then Except.error Panic.makeslice
  else Except.ok (List.replicate n.toNat 0)

/-- The expression `&buffer[0]`: index 0 has to be in bounds. -/
def addrOfFirst (buffer : List Nat) : Except Panic Unit :=
  if 0 < buffer.length then Except.ok () else Except.error Panic.indexOutOfRange

/-- Contents of a buffer of `n` bytes after the driver wrote into it during
the call `c`. -/
def bufferAfter (d : Driver) (c : DriverCall) (n : Nat) : List Nat :=
  (List.range n).map (fun i => d.fill c i % 256)

/-! ## Package `image` -/

/-- Type `image.Point`. -/
structure Point where
  X : Int
  Y : Int
  deriving DecidableEq, Repr

/-- Type `image.Rectangle`. -/
structure Rectangle where
  Min : Point
  Max : Point
  deriving DecidableEq, Repr

/-- The function `image.Rect`: the corners are put in order. -/
def Rect (x0 y0 x1 y1 : Int) : Rectangle :=
  let xa := if x0 > x1 then x1 else x0
  let xb := if x0 > x1 then x0 else x1
  let ya := if y0 > y1 then y1 else y0
  let yb := if y0 > y1 then y0 else y1
  ⟨⟨xa, ya⟩, ⟨xb, yb⟩⟩

/-- Method `Rectangle.Dx`. -/
def Rectangle.Dx (bits : Nat) (r : Rectangle) : Int :=
  wrapInt bits (r.Max.X - r.Min.X)

/-- Method `Rectangle.Dy`. -/
def Rectangle.Dy (bits : Nat) (r : Rectangle) : Int :=
  wrapInt bits (r.Max.Y - r.Min.Y)

/-- Type `image.Gray`. -/
structure Gray where
  Pix : List Nat
  Stride : Int
  Rect : Rectangle
  deriving DecidableEq, Repr

/-- The function `image.NewGray`: a zeroed image; it panics when a side is
negative or the number of pixels does not fit an `int`, and its `make` panics
like any other. -/
def NewGray (bits : Nat) (r : Rectangle) : Except Panic Gray :=
  let w := r.Dx bits
  let h := r.Dy bits
  if w < 0 ∨ h < 0 ∨ w * h > maxInt bits then Except.error Panic.hugeImage
  else
    match makeBytes bits (w * h) with
    | Except.error p => Except.error p
    | Except.ok pix => Except.ok ⟨pix, w, r⟩

/-! ## Package `image/png` -/

/-- The byte format of `image/png` below the file signature (chunks, zlib
stream, checksums) is code of the Go standard library and is not part of
this repository; it enters the model as a parameter.  `encode w h pix` is
the stream written for a `w` by `h` 8-bit grayscale image with rows `pix`,
`decode` reads such a stream back. -/
structure PngCodec where
  encode : Nat → Nat → List Nat → List Nat
  decode : List Nat → Option (Nat × Nat × List Nat)

/-- The eight bytes every PNG file starts with. -/
def pngSignature : List Nat := [137, 80, 78, 71, 13, 10, 26, 10]

/-- The slice expression `pix[lo:hi]`. -/
def sliceBytes (pix : List Nat) (lo hi : Int) : Except Panic (List Nat) :=
  if 0 ≤ lo ∧ lo ≤ hi ∧ hi ≤ pix.length then
    Except.ok ((pix.drop lo.toNat).take (hi - lo).toNat)
  else Except.error Panic.sliceBounds

/-- Rows of a gray image as the encoder reads them: row `y` is
`Pix[y*Stride : y*Stride+Dx]`. -/
def grayRows (bits : Nat) (m : Gray) : Except Panic (List (List Nat)) :=
  (List.range (m.Rect.Dy bits).toNat).mapM (fun (y : Nat) =>
    let offset := wrapInt bits ((y : Int) * m.Stride)
    sliceBytes m.Pix offset (wrapInt bits (offset + m.Rect.Dx bits)))

/-- The call `png.Encode(w, m)` on a gray image: `Except.ok none` is the
returned `FormatError` for an invalid image size (nothing is written then),
`Except.ok (some bytes)` the bytes written. -/
def pngEncode (bits : Nat) (codec : PngCodec) (m : Gray) :
    Except Panic (Option (List Nat)) :=
  let mw := m.Rect.Dx bits
  let mh := m.Rect.Dy bits
  if mw ≤ 0 ∨ mh ≤ 0 ∨ mw ≥ 2 ^ 32 ∨ mh ≥ 2 ^ 32 then Except.ok none
  else
    match grayRows bits m with
    | Except.error p => Except.error p
    | Except.ok rows =>
      Except.ok (some (pngSignature ++ codec.encode mw.toNat mh.toNat rows.flatten))

/-- What a wrapper did: the driver calls it made, and what it returned. -/
structure Ran (α : Type) where
  calls : List DriverCall
  result : α

/-- The function `imgInit`. -/
def imgInit (bits : Nat) (d : Driver) : Ran Int :=
  let c : DriverCall := ⟨"img_init", []⟩
  ⟨[c], intOfUintptr bits (d.ret c)⟩

/-- The function `imgSetWidthHeight`. -/
def imgSetWidthHeight (bits : Nat) (d : Driver) (camera width height : Int) : Ran Int :=
  let c : DriverCall := ⟨"img_set_wh",
    [Arg.word (uintptr bits camera), Arg.word (uintptr bits width), Arg.word (uintptr bits height)]⟩
  ⟨[c], intOfUintptr bits (d.ret c)⟩

/-- The second half of `imgReadAsy`, after the driver call: the buffer becomes
the pixels of a gray image of the requested size, which is encoded as PNG.
An encoding error is only logged; the bytes returned are then those written
so far, that is none. -/
def encodeFrame (bits : Nat) (codec : PngCodec) (buffer : List Nat) (width height : Int) :
    Except Panic (List Nat) :=
  match NewGray bits (Rect 0 0 width height) with
  | Except.error p => Except.error p
  | Except.ok img =>
    match pngEncode bits codec ⟨buffer, img.Stride, img.Rect⟩ with
    | Except.error p => Except.error p
    | Except.ok written => Except.ok (written.getD [])

/-- The call `img_readAsy(camera, &buffer[0], width*height, timeout)` made by
`imgReadAsy` when the buffer is `buffer`. -/
def readAsyCall (bits : Nat) (camera width height timeout : Int) (buffer : List Nat) :
    DriverCall :=
  ⟨"img_readAsy",
    [Arg.word (uintptr bits camera), Arg.buf buffer,
     Arg.word (uintptr bits (wrapInt bits (width * height))),
     Arg.word (uintptr bits timeout)]⟩

/-- The function `imgReadAsy`: the result is the pair it returns, or the
panic it stops with. -/
def imgReadAsy (bits : Nat) (codec : PngCodec) (d : Driver)
    (camera width height timeout : Int) : Ran (Except Panic (Int × List Nat)) :=
  match makeBytes bits (wrapInt bits (width * height)) with
  | Except.error p => ⟨[], Except.error p⟩
  | Except.ok buffer =>
    match addrOfFirst buffer with
    | Except.error p => ⟨[], Except.error p⟩
    | Except.ok _ =>
      let c := readAsyCall bits camera width height timeout buffer
      match encodeFrame bits codec (bufferAfter d c buffer.length) width height with
      | Except.error p => ⟨[c], Except.error p⟩
      | Except.ok png => ⟨[c], Except.ok (intOfUintptr bits (d.ret c), png)⟩

/-- The function `imgLed`. -/
def imgLed (bits : Nat) (d : Driver) (camera mode : Int) : Ran Int :=
  let c : DriverCall := ⟨"img_led", [Arg.word (uintptr bits camera), Arg.word (uintptr bits mode)]⟩
  ⟨[c], intOfUintptr bits (d.ret c)⟩

/-- The function `imgReset`. -/
def imgReset (bits : Nat) (d : Driver) (camera : Int) : Ran Int :=
  let c : DriverCall := ⟨"img_reset", [Arg.word (uintptr bits camera)]⟩
  ⟨[c], intOfUintptr bits (d.ret c)⟩

/-- The function `imgSetExposure`. -/
def imgSetExposure (bits : Nat) (d : Driver) (camera exposure : Int) : Ran Int :=
  let c : DriverCall := ⟨"img_set_exp",
    [Arg.word (uintptr bits camera), Arg.word (uintptr bits exposure)]⟩
  ⟨[c], intOfUintptr bits (d.ret c)⟩

/-- The function `imgSetGain`. -/
def imgSetGain (bits : Nat) (d : Driver) (camera gain : Int) : Ran Int :=
  let c : DriverCall := ⟨"img_set_gain",
    [Arg.word (uintptr bits camera), Arg.word (uintptr bits gain)]⟩
  ⟨[c], intOfUintptr bits (d.ret c)⟩

/-- The function `imgSetLt`. -/
def imgSetLt (bits : Nat) (d : Driver) (camera a2 a3 : Int) : Ran Int :=
  let c : DriverCall := ⟨"img_set_lt",
    [Arg.word (uintptr bits camera), Arg.word (uintptr bits a2), Arg.word (uintptr bits a3)]⟩
  ⟨[c], intOfUintptr bits (d.ret c)⟩

/-- The function `isValidCamera`. -/
def isValidCamera (cameraID : Int) : Bool :=
  if cameraID = 1 ∨ cameraID = 5 then true else false

/-! ## Package `net/http` -/

/-- What the client receives: status line, the headers the handler set, body. -/
structure Response where
  status : Nat
  header : List (String × String)
  body : List Nat
  deriving DecidableEq, Repr

/-- State of an `http.ResponseWriter`: `status` is `none` until the status
line has been written. -/
structure ResponseWriter where
  header : List (String × String)
  status : Option Nat
  body : List Nat
  deriving DecidableEq, Repr

/-- A fresh response writer. -/
def ResponseWriter.new : ResponseWriter := ⟨[], none, []⟩

/-- The call `w.Header().Set(key, value)`; once the status line is out the
headers sent to the client no longer change. -/
def ResponseWriter.Set (w : ResponseWriter) (key value : String) : ResponseWriter :=
  match w.status with
  | some _ => w
  | none => ⟨w.header.filter (fun kv => kv.1 ≠ key) ++ [(key, value)], w.status, w.body⟩

/-- The call `w.WriteHeader(code)`. -/
def ResponseWriter.WriteHeader (w : ResponseWriter) (code : Nat) : ResponseWriter :=
  match w.status with
  | some _ => w
  | none => ⟨w.header, some code, w.body⟩

/-- The call `w.Write(data)`: the first write sends status 200 if none was set. -/
def ResponseWriter.Write (w : ResponseWriter) (data : List Nat) : ResponseWriter :=
  let w1 := w.WriteHeader 200
  ⟨w1.header, w1.status, w1.body ++ data⟩

/-- The function `http.Error`: the message is written with `fmt.Fprintln`. -/
def httpError (w : ResponseWriter) (error : GoString) (code : Nat) : ResponseWriter :=
  let w1 := w.Set "Content-Type" "text/plain; charset=utf-8"
  let w2 := w1.Set "X-Content-Type-Options" "nosniff"
  let w3 := w2.WriteHeader code
  w3.Write (error ++ [10])

/-- The response the server sends when the handler returns. -/
def ResponseWriter.finish (w : ResponseWriter) : Response :=
  ⟨w.status.getD 200, w.header, w.body⟩

/-- The route variables `mux.Vars(r)`; a missing key reads as the empty string. -/
abbrev Vars := String → GoString

/-- What a handler run leaves behind: a response, or a panic (the server then
sends no response). -/
inductive Outcome where
  | response (r : Response)
  | panic (p : Panic)
  deriving DecidableEq, Repr

/-- A run of a handler: the driver calls it made and its outcome. -/
structure Run where
  calls : List DriverCall
  outcome : Outcome
  deriving DecidableEq, Repr

/-- The rejection every handler starts with. -/
def invalidCamera : Run :=
  ⟨[], Outcome.response (httpError ResponseWriter.new (ascii "Invalid camera") 500).finish⟩

/-- Outcome of a handler that calls a wrapper, drops its result and writes
nothing. -/
def silent (r : Ran Int) : Run :=
  ⟨r.calls, Outcome.response ResponseWriter.new.finish⟩

/-! ## The handlers -/

/-- The handler `imgReadAsyHandler`; `now` is the formatted reading of the clock. -/
def imgReadAsyHandler (bits : Nat) (codec : PngCodec) (d : Driver) (now : String)
    (vars : Vars) : Run :=
  let cameraID := (Atoi bits (vars "cameraId")).1
  if !isValidCamera cameraID then invalidCamera
  else
    let width := (Atoi bits (vars "width")).1
    let height := (Atoi bits (vars "height")).1
    let timeout := (Atoi bits (vars "timeout")).1
    let r := imgReadAsy bits codec d cameraID width height timeout
    match r.result with
    | Except.error p => ⟨r.calls, Outcome.panic p⟩
    | Except.ok (_, png) =>
      let w1 := ResponseWriter.new.Set "Content-Type" "image/png"
      let w2 := w1.Set "Last-Modified" now
      let w3 := w2.Set "Cache-Control"
        "no-store, no-cache, must-revalidate, post-check=0, pre-check=0"
      let w4 := w3.Set "Pragma" "no-cache"
      ⟨r.calls, Outcome.response (w4.Write png).finish⟩

/-- The handler `imgSetWidthHeightHandler`. -/
def imgSetWidthHeightHandler (bits : Nat) (d : Driver) (vars : Vars) : Run :=
  let cameraID := (Atoi bits (vars "cameraId")).1
  if !isValidCamera cameraID then invalidCamera
  else
    let width := (Atoi bits (vars "width")).1
    let height := (Atoi bits (vars "height")).1
    silent (imgSetWidthHeight bits d cameraID width height)

/-- The handler `imgLedHandler`. -/
def imgLedHandler (bits : Nat) (d : Driver) (vars : Vars) : Run :=
  let cameraID := (Atoi bits (vars "cameraId")).1
  if !isValidCamera cameraID then invalidCamera
  else
    let mode := (Atoi bits (vars "mode")).1
    silent (imgLed bits d cameraID mode)

/-- The handler `imgResetHandler`. -/
def imgResetHandler (bits : Nat) (d : Driver) (vars : Vars) : Run :=
  let cameraID := (Atoi bits (vars "cameraId")).1
  if !isValidCamera cameraID then invalidCamera
  else silent (imgReset bits d cameraID)

/-- The handler `imgSetExposureHandler`. -/
def imgSetExposureHandler (bits : Nat) (d : Driver) (vars : Vars) : Run :=
  let cameraID := (Atoi bits (vars "cameraId")).1
  if !isValidCamera cameraID then invalidCamera
  else
    let exposure := (Atoi bits (vars "exposure")).1
    silent (imgSetExposure bits d cameraID exposure)

/-- The handler `imgSetGainHandler`. -/
def imgSetGainHandler (bits : Nat) (d : Driver) (vars : Vars) : Run :=
  let cameraID := (Atoi bits (vars "cameraId")).1
  if !isValidCamera cameraID then invalidCamera
  else
    let gain := (Atoi bits (vars "gain")).1
    silent (imgSetGain bits d cameraID gain)

/-- The handler `imgSetLtHandler`. -/
def imgSetLtHandler (bits : Nat) (d : Driver) (vars : Vars) : Run :=
  let cameraID := (Atoi bits (vars "cameraId")).1
  if !isValidCamera cameraID then invalidCamera
  else
    let a2 := (Atoi bits (vars "a2")).1
    let a3 := (Atoi bits (vars "a3")).1
    silent (imgSetLt bits d cameraID a2 a3)

/-! ## Startup -/

/-- The constant `time.Nanosecond`. -/
def Nanosecond : Int := 1
/-- The constant `time.Microsecond`. -/
def Microsecond : Int := 1000 * Nanosecond
/-- The constant `time.Millisecond`. -/
def Millisecond : Int := 1000 * Microsecond
/-- The constant `time.Second`. -/
def Second : Int := 1000 * Millisecond

/-- Effects of startup in the order they happen. -/
inductive Event where
  | sleep (nanoseconds : Int)
  | call (c : DriverCall)
  deriving DecidableEq, Repr

/-- How `initializeCameras` ends: `log.Fatal` stops the process, otherwise the
camera count is returned. -/
inductive Startup where
  | fatal
  | returned (cameras : Int)
  deriving DecidableEq, Repr

/-- The function `initializeCameras`: `time.Sleep(delay * time.Second)` with
`delay = 5` (a `time.Duration`, an `int64`), then `imgInit`, then the check of
the count. -/
def initializeCameras (bits : Nat) (d : Driver) : List Event × Startup :=
  let delay : Int := 5
  let slept : List Event := [Event.sleep (wrapInt 64 (delay * Second))]
  let r := imgInit bits d
  let events := slept ++ r.calls.map Event.call
  let cameras := r.result
  if cameras < 2 then (events, Startup.fatal) else (events, Startup.returned cameras)

/-! ## Concrete inputs used in the checks below -/

/-- Route variables given as a table of texts. -/
def varsOf (table : List (String × String)) : Vars :=
  fun key =>
    match table.lookup key with
    | some text => ascii text
    | none => []

/-- A driver that answers 7 to every call and writes the bytes 1, 2, 3, ... -/
def sampleDriver : Driver := ⟨fun _ => 7, fun _ i => i + 1⟩

/-- A driver that answers 0 to every call and writes the same bytes as
`sampleDriver`. -/
def failingDriver : Driver := ⟨fun _ => 0, fun _ i => i + 1⟩

/-- A driver that reports a single camera and leaves buffers zeroed. -/
def oneCameraDriver : Driver := ⟨fun _ => 1, fun _ _ => 0⟩

/-- Big-endian bytes of a 32-bit number. -/
def be32 (n : Nat) : List Nat :=
  [n / 16777216 % 256, n / 65536 % 256, n / 256 % 256, n % 256]

/-- A codec without compression: both sides as 32-bit numbers, then the rows.
It shows that the contract `PngCodec.Lossless` can be met. -/
def plainCodec : PngCodec where
  encode := fun w h pix => be32 w ++ be32 h ++ pix
  decode := fun bytes =>
    match bytes with
    | a :: b :: c :: d :: e :: f :: g :: i :: pix =>
      let w := ((a * 256 + b) * 256 + c) * 256 + d
      let h := ((e * 256 + f) * 256 + g) * 256 + i
      if pix.length = w * h then some (w, h, pix) else none
    | _ => none

/-- The outcome with one response header left out. -/
def Outcome.without (key : String) : Outcome → Outcome
  | Outcome.response r =>
    Outcome.response ⟨r.status, r.header.filter (fun kv => kv.1 ≠ key), r.body⟩
  | Outcome.panic p => Outcome.panic p

/-- A frame request with height 0. -/
def zeroHeightRequest : Vars :=
  varsOf [("cameraId", "1"), ("width", "640"), ("height", "0"), ("timeout", "100")]

/-- A request that names every parameter any handler reads. -/
def fullRequest : Vars :=
  varsOf [("cameraId", "5"), ("width", "3"), ("height", "2"), ("timeout", "100"),
    ("mode", "1"), ("exposure", "-4"), ("gain", "12"), ("a2", "7"), ("a3", "+8")]

/-- An exposure request whose number is one above the largest 64-bit `int`. -/
def hugeExposureRequest : Vars :=
  varsOf [("cameraId", "1"), ("exposure", "9223372036854775808")]

/-- The same request with the text `abc` for the exposure. -/
def badExposureRequest : Vars :=
  varsOf [("cameraId", "1"), ("exposure", "abc")]

/-- The same request with the text `0` for the exposure. -/
def zeroExposureRequest : Vars :=
  varsOf [("cameraId", "1"), ("exposure", "0")]

/-- Names of the route variables the handlers read. -/
def routeVariables : List String :=
  ["cameraId", "width", "height", "timeout", "mode", "exposure", "gain", "a2", "a3"]

/-- A request as the route `imgSetLt` delivers it. -/
def ltRequest : Vars :=
  varsOf [("cameraId", "5"), ("a2", "7"), ("a3", "+8")]

/-- A request as the route `imgSetExposure` delivers it. -/
def exposureRequest : Vars :=
  varsOf [("cameraId", "5"), ("exposure", "-4")]

/-- A request as the route `imgSetGain` delivers it. -/
def gainRequest : Vars :=
  varsOf [("cameraId", "1"), ("gain", "12")]

/-- A request as the route `imgLed` delivers it. -/
def ledRequest : Vars :=
  varsOf [("cameraId", "1"), ("mode", "1")]

/-- A request as the route `imgReset` delivers it. -/
def resetRequest : Vars :=
  varsOf [("cameraId", "5")]

/-- A request as the route `imgSetWidthHeight` delivers it. -/
def sizeRequest : Vars :=
  varsOf [("cameraId", "1"), ("width", "640"), ("height", "480")]

/-- A request as the route `imgReadAsy` delivers it: 3 by 2 pixels. -/
def frameRequest : Vars :=
  varsOf [("cameraId", "5"), ("width", "3"), ("height", "2"), ("timeout", "100")]

theorem parseIntCheck_cases (bits : Nat) (hb : bits = 32 ∨ bits = 64) (neg : Bool)
    (p : Nat × Option NumError) :
    parseIntCheck bits neg p = (0, some NumError.ErrSyntax) ∨
    (parseIntCheck bits neg p).2 = none ∨
    parseIntCheck bits neg p = (maxInt bits, some NumError.ErrRange) ∨
    parseIntCheck bits neg p = (minInt bits, some NumError.ErrRange) := by
  have e1 : wrapInt 64 ((2 ^ (64 - 1) % 2 ^ 64 + 2 ^ 64 - 1) % 2 ^ 64 : Nat) = maxInt 64 := by
    decide
  have e2 : wrapInt 64 (-(wrapInt 64 ((2 ^ (64 - 1) % 2 ^ 64 : Nat)))) = minInt 64 := by
    decide
  have e3 : wrapInt 64 ((2 ^ (32 - 1) % 2 ^ 64 + 2 ^ 64 - 1) % 2 ^ 64 : Nat) = maxInt 32 := by
    decide
  have e4 : wrapInt 64 (-(wrapInt 64 ((2 ^ (32 - 1) % 2 ^ 64 : Nat)))) = minInt 32 := by
    decide
  unfold parseIntCheck
  split
  · left; rfl
  · right
    dsimp only
    split_ifs with h1 h2
    · right; left
      rcases hb with rfl | rfl
      · rw [e3]
      · rw [e1]
    · right; right
      rcases hb with rfl | rfl
      · rw [e4]
      · rw [e2]
    · left; rfl
    · left; rfl

theorem ParseInt_cases (bits : Nat) (hb : bits = 32 ∨ bits = 64) (s : GoString) :
    ParseInt bits s = (0, some NumError.ErrSyntax) ∨ (ParseInt bits s).2 = none ∨
    ParseInt bits s = (maxInt bits, some NumError.ErrRange) ∨
    ParseInt bits s = (minInt bits, some NumError.ErrRange) := by
  cases s with
  | nil => left; rfl
  | cons c cs => exact parseIntCheck_cases bits hb _ _

theorem atoiFast_cases (s : GoString) :
    atoiFast s = (0, some NumError.ErrSyntax) ∨ (atoiFast s).2 = none := by
  unfold atoiFast
  lift_lets
  intro body
  by_cases hl : body.length < 1
  · simp [hl]
  · simp only [hl, if_false]
    cases atoiFastLoop body 0 <;> simp

/-- The four ways `Atoi` can end: a syntax error with value 0, success, or a
range error with the largest or the smallest `int`. -/
theorem Atoi_cases (bits : Nat) (hb : bits = 32 ∨ bits = 64) (s : GoString) :
    Atoi bits s = (0, some NumError.ErrSyntax) ∨ (Atoi bits s).2 = none ∨
    Atoi bits s = (maxInt bits, some NumError.ErrRange) ∨
    Atoi bits s = (minInt bits, some NumError.ErrRange) := by
  have h0 : wrapInt bits 0 = 0 := by rcases hb with rfl | rfl <;> decide
  have h1 : wrapInt bits (maxInt bits) = maxInt bits := by rcases hb with rfl | rfl <;> decide
  have h2 : wrapInt bits (minInt bits) = minInt bits := by rcases hb with rfl | rfl <;> decide
  unfold Atoi
  split_ifs with hc
  · rcases atoiFast_cases s with h | h
    · left; exact h
    · right; left; exact h
  · rcases ParseInt_cases bits hb s with h | h | h | h
    · left; rw [h]; simp [h0]
    · right; left; exact h
    · right; right; left; rw [h]; simp [h1]
    · right; right; right; rw [h]; simp [h2]

/-- A failed parse never yields a valid camera id. -/
theorem Atoi_error_not_camera (bits : Nat) (hb : bits = 32 ∨ bits = 64) (s : GoString)
    (herr : (Atoi bits s).2 ≠ none) : isValidCamera (Atoi bits s).1 = false := by
  rcases Atoi_cases bits hb s with h | h | h | h
  · rw [h]; rfl
  · exact absurd h herr
  · rw [h]; rcases hb with rfl | rfl <;> decide
  · rw [h]; rcases hb with rfl | rfl <;> decide

theorem isValidCamera_false_of_ne (c : Int) (h1 : c ≠ 1) (h5 : c ≠ 5) :
    isValidCamera c = false := by
  simp [isValidCamera, h1, h5]


theorem maxAlloc_nonneg (bits : Nat) : 0 ≤ maxAlloc bits := by
  unfold maxAlloc
  split_ifs <;> norm_num

theorem makeBytes_ok (bits : Nat) (n : Int) (h : 0 ≤ n) (hmax : n ≤ maxAlloc bits) :
    makeBytes bits n = Except.ok (List.replicate n.toNat 0) := by
  unfold makeBytes
  rw [if_neg (by omega)]

theorem addrOfFirst_replicate (n : Int) (h : 1 ≤ n) :
    addrOfFirst (List.replicate n.toNat 0) = Except.ok () := by
  unfold addrOfFirst
  rw [if_pos (by rw [List.length_replicate]; omega)]

/-- With a product from 1 to the allocation limit the buffer exists, the
driver is called once and the frame is encoded. -/
theorem imgReadAsy_of_pos (bits : Nat) (codec : PngCodec) (d : Driver)
    (camera width height timeout : Int) (hn : 1 ≤ wrapInt bits (width * height))
    (hmax : wrapInt bits (width * height) ≤ maxAlloc bits) :
    imgReadAsy bits codec d camera width height timeout =
      ⟨[readAsyCall bits camera width height timeout
          (List.replicate (wrapInt bits (width * height)).toNat 0)],
        (encodeFrame bits codec
          (bufferAfter d (readAsyCall bits camera width height timeout
            (List.replicate (wrapInt bits (width * height)).toNat 0))
            (wrapInt bits (width * height)).toNat) width height).map
          (fun png => (intOfUintptr bits (d.ret (readAsyCall bits camera width height timeout
            (List.replicate (wrapInt bits (width * height)).toNat 0))), png))⟩ := by
  unfold imgReadAsy
  rw [makeBytes_ok bits _ (by omega) hmax]
  dsimp only
  rw [addrOfFirst_replicate _ hn]
  dsimp only
  rw [List.length_replicate]
  cases encodeFrame bits codec
    (bufferAfter d (readAsyCall bits camera width height timeout
      (List.replicate (wrapInt bits (width * height)).toNat 0))
      (wrapInt bits (width * height)).toNat) width height <;> rfl

/-- With a product of 0 no driver call is made and the function panics on
the index. -/
theorem imgReadAsy_of_zero (bits : Nat) (codec : PngCodec) (d : Driver)
    (camera width height timeout : Int) (hn : wrapInt bits (width * height) = 0) :
    imgReadAsy bits codec d camera width height timeout =
      ⟨[], Except.error Panic.indexOutOfRange⟩ := by
  have h0 := maxAlloc_nonneg bits
  unfold imgReadAsy
  rw [hn, makeBytes_ok bits 0 (le_refl 0) h0]
  rfl

/-- With a negative product or one above the allocation limit no driver call
is made and the function panics in `make`. -/
theorem imgReadAsy_of_no_buffer (bits : Nat) (codec : PngCodec) (d : Driver)
    (camera width height timeout : Int)
    (hn : wrapInt bits (width * height) < 0 ∨ wrapInt bits (width * height) > maxAlloc bits) :
    imgReadAsy bits codec d camera width height timeout =
      ⟨[], Except.error Panic.makeslice⟩ := by
  unfold imgReadAsy makeBytes
  rw [if_pos hn]

/-- A handler with a valid camera id makes the driver calls of `imgReadAsy`. -/
theorem imgReadAsyHandler_calls (bits : Nat) (codec : PngCodec) (d : Driver) (now : String)
    (vars : Vars) (hv : isValidCamera (Atoi bits (vars "cameraId")).1 = true) :
    (imgReadAsyHandler bits codec d now vars).calls =
      (imgReadAsy bits codec d (Atoi bits (vars "cameraId")).1 (Atoi bits (vars "width")).1
        (Atoi bits (vars "height")).1 (Atoi bits (vars "timeout")).1).calls := by
  unfold imgReadAsyHandler
  simp only [hv, Bool.not_true, Bool.false_eq_true, if_false]
  split <;> rfl

theorem uintptr_camera (bits : Nat) (hb : bits = 32 ∨ bits = 64) (camera : Int)
    (hvalid : camera = 1 ∨ camera = 5) : uintptr bits camera = camera.toNat := by
  rcases hb with rfl | rfl <;> rcases hvalid with rfl | rfl <;> decide

theorem isValidCamera_true_of (c : Int) (h : c = 1 ∨ c = 5) : isValidCamera c = true := by
  rcases h with rfl | rfl <;> rfl

theorem bytes_bufferAfter (d : Driver) (c : DriverCall) (n : Nat) :
    ∀ b ∈ bufferAfter d c n, b < 256 := by
  intro b hb
  simp only [bufferAfter, List.mem_map] at hb
  obtain ⟨i, _, rfl⟩ := hb
  exact Nat.mod_lt _ (by norm_num)

theorem parseIntCheck_range (bits : Nat) (hb : bits = 32 ∨ bits = 64) (neg : Bool)
    (p : Nat × Option NumError)
    (h : (parseIntCheck bits neg p).2 = some NumError.ErrRange) :
    (parseIntCheck bits neg p).1 = if neg = true then minInt bits else maxInt bits := by
  have e1 : wrapInt 64 ((2 ^ (64 - 1) % 2 ^ 64 + 2 ^ 64 - 1) % 2 ^ 64 : Nat) = maxInt 64 := by
    decide
  have e2 : wrapInt 64 (-(wrapInt 64 ((2 ^ (64 - 1) % 2 ^ 64 : Nat)))) = minInt 64 := by
    decide
  have e3 : wrapInt 64 ((2 ^ (32 - 1) % 2 ^ 64 + 2 ^ 64 - 1) % 2 ^ 64 : Nat) = maxInt 32 := by
    decide
  have e4 : wrapInt 64 (-(wrapInt 64 ((2 ^ (32 - 1) % 2 ^ 64 : Nat)))) = minInt 32 := by
    decide
  unfold parseIntCheck at h ⊢
  split at h
  · simp at h
  · rename_i un err hne
    dsimp only at h ⊢
    by_cases h1 : neg = false ∧ un ≥ 2 ^ (bits - 1) % 2 ^ 64
    · rw [if_pos h1, if_neg (by simp [h1.1])]
      rcases hb with rfl | rfl
      · exact e3
      · exact e1
    · rw [if_neg h1] at h ⊢
      by_cases h2 : neg = true ∧ un > 2 ^ (bits - 1) % 2 ^ 64
      · rw [if_pos h2, if_pos h2.1]
        rcases hb with rfl | rfl
        · exact e4
        · exact e2
      · rw [if_neg h2] at h
        simp at h

theorem ParseInt_range (bits : Nat) (hb : bits = 32 ∨ bits = 64) (s : GoString)
    (h : (ParseInt bits s).2 = some NumError.ErrRange) :
    (ParseInt bits s).1 = if s.head? = some 45 then minInt bits else maxInt bits := by
  cases s with
  | nil => simp [ParseInt] at h
  | cons c cs =>
    have hr := parseIntCheck_range bits hb (decide (c = 45))
      (ParseUint bits (if c = 43 then cs else if c = 45 then cs else c :: cs)) h
    simp only [ParseInt, List.head?_cons, Option.some.injEq]
    rw [hr]
    simp

/-- A range error of `Atoi` comes with the smallest `int` when the text starts
with `-` (byte 45) and with the largest `int` otherwise. -/
theorem Atoi_range (bits : Nat) (hb : bits = 32 ∨ bits = 64) (s : GoString)
    (h : (Atoi bits s).2 = some NumError.ErrRange) :
    (Atoi bits s).1 = if s.head? = some 45 then minInt bits else maxInt bits := by
  have h1 : wrapInt bits (maxInt bits) = maxInt bits := by rcases hb with rfl | rfl <;> decide
  have h2 : wrapInt bits (minInt bits) = minInt bits := by rcases hb with rfl | rfl <;> decide
  unfold Atoi at h ⊢
  by_cases hc : (bits = 32 ∧ 0 < s.length ∧ s.length < 10) ∨
      (bits = 64 ∧ 0 < s.length ∧ s.length < 19)
  · rw [if_pos hc] at h
    rcases atoiFast_cases s with hf | hf
    · rw [hf] at h; simp at h
    · rw [hf] at h; simp at h
  · rw [if_neg hc] at h ⊢
    have hr := ParseInt_range bits hb s h
    show wrapInt bits (ParseInt bits s).1 = _
    rw [hr]
    split_ifs
    · exact h2
    · exact h1

/-- A syntax error of `Atoi` comes with the value 0. -/
theorem Atoi_zero_of_bad_text (bits : Nat) (hb : bits = 32 ∨ bits = 64) (s : GoString)
    (h : (Atoi bits s).2 = some NumError.ErrSyntax) : (Atoi bits s).1 = 0 := by
  rcases Atoi_cases bits hb s with h0 | h0 | h0 | h0
  · rw [h0]
  · rw [h0] at h; exact absurd h (by simp)
  · rw [h0] at h; exact absurd h (by simp)
  · rw [h0] at h; exact absurd h (by simp)
/-! ## The claims -/

/-- Claim C1: for every integer `cameraID`, `isValidCamera cameraID` is true
if and only if `cameraID` is 1 or 5. -/
theorem isValidCamera_iff (cameraID : Int) :
    isValidCamera cameraID = true ↔ cameraID = 1 ∨ cameraID = 5 := by
  unfold isValidCamera
  split_ifs with h
  · simp [h]
  · simp [h]

/-- Claim C2: when the `cameraId` route variable does not parse to 1 or 5 (it
parses to another integer, or `Atoi` reports an error), each of the seven
handlers makes no driver call and answers with status 500 and the line
`Invalid camera`. -/
theorem invalid_camera_rejected (bits : Nat) (codec : PngCodec) (d : Driver) (now : String)
    (vars : Vars)
    (hcam : ((Atoi bits (vars "cameraId")).1 ≠ 1 ∧ (Atoi bits (vars "cameraId")).1 ≠ 5) ∨
      ((bits = 32 ∨ bits = 64) ∧ (Atoi bits (vars "cameraId")).2 ≠ none)) :
    invalidCamera = ⟨[], Outcome.response ⟨500,
        [("Content-Type", "text/plain; charset=utf-8"), ("X-Content-Type-Options", "nosniff")],
        ascii "Invalid camera" ++ [10]⟩⟩ ∧
    imgReadAsyHandler bits codec d now vars = invalidCamera ∧
    imgSetWidthHeightHandler bits d vars = invalidCamera ∧
    imgLedHandler bits d vars = invalidCamera ∧
    imgResetHandler bits d vars = invalidCamera ∧
    imgSetExposureHandler bits d vars = invalidCamera ∧
    imgSetGainHandler bits d vars = invalidCamera ∧
    imgSetLtHandler bits d vars = invalidCamera := by
  have hv : isValidCamera (Atoi bits (vars "cameraId")).1 = false := by
    rcases hcam with ⟨h1, h5⟩ | ⟨hb, herr⟩
    · exact isValidCamera_false_of_ne _ h1 h5
    · exact Atoi_error_not_camera bits hb _ herr
  refine ⟨by decide, ?_, ?_, ?_, ?_, ?_, ?_, ?_⟩
  · simp [imgReadAsyHandler, hv]
  · simp [imgSetWidthHeightHandler, hv]
  · simp [imgLedHandler, hv]
  · simp [imgResetHandler, hv]
  · simp [imgSetExposureHandler, hv]
  · simp [imgSetGainHandler, hv]
  · simp [imgSetLtHandler, hv]

/-- Claim C2 at two concrete requests on a 64-bit platform: camera id `2`
(another integer) and camera id `front` (not an integer). -/
theorem invalid_camera_rejected_witness :
    (Atoi 64 (varsOf [("cameraId", "2"), ("gain", "3")] "cameraId")).1 = 2 ∧
    imgSetGainHandler 64 sampleDriver (varsOf [("cameraId", "2"), ("gain", "3")]) =
      invalidCamera ∧
    (Atoi 64 (varsOf [("cameraId", "front")] "cameraId")).2 = some NumError.ErrSyntax ∧
    imgResetHandler 64 sampleDriver (varsOf [("cameraId", "front")]) = invalidCamera :=
  ⟨by decide,
    (invalid_camera_rejected 64 plainCodec sampleDriver "Thu, 01 Jan 2026 00:00:00 GMT"
      (varsOf [("cameraId", "2"), ("gain", "3")]) (Or.inl (by decide))).2.2.2.2.2.2.1,
    by decide,
    (invalid_camera_rejected 64 plainCodec sampleDriver "Thu, 01 Jan 2026 00:00:00 GMT"
      (varsOf [("cameraId", "front")]) (Or.inr (by decide))).2.2.2.2.1⟩

/-- Claim C3 fails for the frame handler: with camera 1, width 640, height 0
and timeout 100, all of which parse as integers, `imgReadAsyHandler` makes no
driver call; it panics on `&buffer[0]`. -/
theorem readAsy_zero_height_no_call :
    Atoi 64 (zeroHeightRequest "cameraId") = (1, none) ∧
    Atoi 64 (zeroHeightRequest "width") = (640, none) ∧
    Atoi 64 (zeroHeightRequest "height") = (0, none) ∧
    Atoi 64 (zeroHeightRequest "timeout") = (100, none) ∧
    imgReadAsyHandler 64 plainCodec sampleDriver "" zeroHeightRequest =
      ⟨[], Outcome.panic Panic.indexOutOfRange⟩ := by
  decide

/-- Claim C3 as amended: for camera id 1 or 5, each of the six setting
handlers, whenever the parameters of its own route parse as integers, makes
exactly one driver call, to the procedure of its route, with the camera id
first and the parsed values in order (converted with `uintptr`);
`imgReadAsyHandler` makes exactly one call
`img_readAsy(camera, buffer, width*height, timeout)` provided the Go product
`width*height` is at least 1 and at most the allocation limit of the runtime. -/
theorem handlers_forward_one_call (bits : Nat) (hb : bits = 32 ∨ bits = 64)
    (codec : PngCodec) (d : Driver) (now : String) (vars : Vars) (camera : Int)
    (hcam : Atoi bits (vars "cameraId") = (camera, none))
    (hvalid : camera = 1 ∨ camera = 5) :
    (∀ width height, Atoi bits (vars "width") = (width, none) →
      Atoi bits (vars "height") = (height, none) →
      (imgSetWidthHeightHandler bits d vars).calls = [⟨"img_set_wh",
        [Arg.word camera.toNat, Arg.word (uintptr bits width),
         Arg.word (uintptr bits height)]⟩]) ∧
    (∀ mode, Atoi bits (vars "mode") = (mode, none) →
      (imgLedHandler bits d vars).calls = [⟨"img_led",
        [Arg.word camera.toNat, Arg.word (uintptr bits mode)]⟩]) ∧
    (imgResetHandler bits d vars).calls = [⟨"img_reset", [Arg.word camera.toNat]⟩] ∧
    (∀ exposure, Atoi bits (vars "exposure") = (exposure, none) →
      (imgSetExposureHandler bits d vars).calls = [⟨"img_set_exp",
        [Arg.word camera.toNat, Arg.word (uintptr bits exposure)]⟩]) ∧
    (∀ gain, Atoi bits (vars "gain") = (gain, none) →
      (imgSetGainHandler bits d vars).calls = [⟨"img_set_gain",
        [Arg.word camera.toNat, Arg.word (uintptr bits gain)]⟩]) ∧
    (∀ a2 a3, Atoi bits (vars "a2") = (a2, none) → Atoi bits (vars "a3") = (a3, none) →
      (imgSetLtHandler bits d vars).calls = [⟨"img_set_lt",
        [Arg.word camera.toNat, Arg.word (uintptr bits a2), Arg.word (uintptr bits a3)]⟩]) ∧
    (∀ width height timeout, Atoi bits (vars "width") = (width, none) →
      Atoi bits (vars "height") = (height, none) →
      Atoi bits (vars "timeout") = (timeout, none) →
      1 ≤ wrapInt bits (width * height) → wrapInt bits (width * height) ≤ maxAlloc bits →
      (imgReadAsyHandler bits codec d now vars).calls = [⟨"img_readAsy",
        [Arg.word camera.toNat,
         Arg.buf (List.replicate (wrapInt bits (width * height)).toNat 0),
         Arg.word (uintptr bits (wrapInt bits (width * height))),
         Arg.word (uintptr bits timeout)]⟩]) := by
  have hv : isValidCamera camera = true := isValidCamera_true_of camera hvalid
  have hu : uintptr bits camera = camera.toNat := uintptr_camera bits hb camera hvalid
  refine ⟨?_, ?_, ?_, ?_, ?_, ?_, ?_⟩
  · intro width height hwidth hheight
    simp [imgSetWidthHeightHandler, hcam, hv, hwidth, hheight, silent, imgSetWidthHeight, hu]
  · intro mode hmode
    simp [imgLedHandler, hcam, hv, hmode, silent, imgLed, hu]
  · simp [imgResetHandler, hcam, hv, silent, imgReset, hu]
  · intro exposure hexposure
    simp [imgSetExposureHandler, hcam, hv, hexposure, silent, imgSetExposure, hu]
  · intro gain hgain
    simp [imgSetGainHandler, hcam, hv, hgain, silent, imgSetGain, hu]
  · intro a2 a3 ha2 ha3
    simp [imgSetLtHandler, hcam, hv, ha2, ha3, silent, imgSetLt, hu]
  · intro width height timeout hwidth hheight htimeout hn hmax
    rw [imgReadAsyHandler_calls bits codec d now vars (by rw [hcam]; exact hv)]
    rw [hcam, hwidth, hheight, htimeout]
    rw [imgReadAsy_of_pos bits codec d camera width height timeout hn hmax]
    simp only [readAsyCall, hu]

/-- Claim C3 as amended, on a 64-bit platform, at one request per route, each
carrying only the variables of its own route. -/
theorem handlers_forward_one_call_witness :
    (imgSetWidthHeightHandler 64 sampleDriver sizeRequest).calls =
      [⟨"img_set_wh", [Arg.word 1, Arg.word 640, Arg.word 480]⟩] ∧
    (imgLedHandler 64 sampleDriver ledRequest).calls =
      [⟨"img_led", [Arg.word 1, Arg.word 1]⟩] ∧
    (imgResetHandler 64 sampleDriver resetRequest).calls =
      [⟨"img_reset", [Arg.word 5]⟩] ∧
    (imgSetExposureHandler 64 sampleDriver exposureRequest).calls =
      [⟨"img_set_exp", [Arg.word 5, Arg.word (2 ^ 64 - 4)]⟩] ∧
    (imgSetGainHandler 64 sampleDriver gainRequest).calls =
      [⟨"img_set_gain", [Arg.word 1, Arg.word 12]⟩] ∧
    (imgSetLtHandler 64 sampleDriver ltRequest).calls =
      [⟨"img_set_lt", [Arg.word 5, Arg.word 7, Arg.word 8]⟩] ∧
    (imgReadAsyHandler 64 plainCodec sampleDriver "" frameRequest).calls =
      [⟨"img_readAsy", [Arg.word 5, Arg.buf [0, 0, 0, 0, 0, 0], Arg.word 6, Arg.word 100]⟩] :=
  ⟨((handlers_forward_one_call 64 (Or.inr rfl) plainCodec sampleDriver "" sizeRequest 1
      (by decide) (Or.inl rfl)).1 640 480 (by decide) (by decide)).trans (by decide),
    ((handlers_forward_one_call 64 (Or.inr rfl) plainCodec sampleDriver "" ledRequest 1
      (by decide) (Or.inl rfl)).2.1 1 (by decide)).trans (by decide),
    ((handlers_forward_one_call 64 (Or.inr rfl) plainCodec sampleDriver "" resetRequest 5
      (by decide) (Or.inr rfl)).2.2.1).trans (by decide),
    ((handlers_forward_one_call 64 (Or.inr rfl) plainCodec sampleDriver "" exposureRequest 5
      (by decide) (Or.inr rfl)).2.2.2.1 (-4) (by decide)).trans (by decide),
    ((handlers_forward_one_call 64 (Or.inr rfl) plainCodec sampleDriver "" gainRequest 1
      (by decide) (Or.inl rfl)).2.2.2.2.1 12 (by decide)).trans (by decide),
    ((handlers_forward_one_call 64 (Or.inr rfl) plainCodec sampleDriver "" ltRequest 5
      (by decide) (Or.inr rfl)).2.2.2.2.2.1 7 8 (by decide) (by decide)).trans (by decide),
    ((handlers_forward_one_call 64 (Or.inr rfl) plainCodec sampleDriver "" frameRequest 5
      (by decide) (Or.inr rfl)).2.2.2.2.2.2 3 2 100 (by decide) (by decide) (by decide)
      (by decide) (by decide)).trans (by decide)⟩

/-- Claim C4 fails for an out-of-range number: on a 64-bit platform the text
`9223372036854775808` makes `Atoi` report a range error together with the
value 9223372036854775807, and that value, not 0, is passed to the driver. -/
theorem range_error_value_not_zero :
    Atoi 64 (hugeExposureRequest "exposure") =
      (9223372036854775807, some NumError.ErrRange) ∧
    imgSetExposureHandler 64 sampleDriver hugeExposureRequest =
      ⟨[⟨"img_set_exp", [Arg.word 1, Arg.word 9223372036854775807]⟩],
        Outcome.response ⟨200, [], []⟩⟩ := by
  decide

/-- Claim C4 as amended: when `Atoi` reports a syntax error its value is 0;
when it reports a range error its value is the smallest `int` if the text
starts with `-` and the largest `int` otherwise; and every handler depends
on the texts of its parameters only through the values `Atoi` returns, so a
failed parse is not reported: the request is served exactly like one
carrying those values. -/
theorem parse_failure_values (bits : Nat) (hb : bits = 32 ∨ bits = 64) (codec : PngCodec)
    (d : Driver) (now : String) (vars other : Vars)
    (hsame : ∀ key ∈ routeVariables, (Atoi bits (vars key)).1 = (Atoi bits (other key)).1) :
    (∀ s, (Atoi bits s).2 = some NumError.ErrSyntax → (Atoi bits s).1 = 0) ∧
    (∀ s, (Atoi bits s).2 = some NumError.ErrRange → s.head? = some 45 →
      (Atoi bits s).1 = minInt bits) ∧
    (∀ s, (Atoi bits s).2 = some NumError.ErrRange → s.head? ≠ some 45 →
      (Atoi bits s).1 = maxInt bits) ∧
    imgReadAsyHandler bits codec d now vars = imgReadAsyHandler bits codec d now other ∧
    imgSetWidthHeightHandler bits d vars = imgSetWidthHeightHandler bits d other ∧
    imgLedHandler bits d vars = imgLedHandler bits d other ∧
    imgResetHandler bits d vars = imgResetHandler bits d other ∧
    imgSetExposureHandler bits d vars = imgSetExposureHandler bits d other ∧
    imgSetGainHandler bits d vars = imgSetGainHandler bits d other ∧
    imgSetLtHandler bits d vars = imgSetLtHandler bits d other := by
  have hcam := hsame "cameraId" (by simp [routeVariables])
  have hwidth := hsame "width" (by simp [routeVariables])
  have hheight := hsame "height" (by simp [routeVariables])
  have htimeout := hsame "timeout" (by simp [routeVariables])
  have hmode := hsame "mode" (by simp [routeVariables])
  have hexposure := hsame "exposure" (by simp [routeVariables])
  have hgain := hsame "gain" (by simp [routeVariables])
  have ha2 := hsame "a2" (by simp [routeVariables])
  have ha3 := hsame "a3" (by simp [routeVariables])
  refine ⟨?_, ?_, ?_, ?_, ?_, ?_, ?_, ?_, ?_, ?_⟩
  · intro s hs
    exact Atoi_zero_of_bad_text bits hb s hs
  · intro s hs hneg
    rw [Atoi_range bits hb s hs, if_pos hneg]
  · intro s hs hpos
    rw [Atoi_range bits hb s hs, if_neg hpos]
  · simp only [imgReadAsyHandler, hcam, hwidth, hheight, htimeout]
  · simp only [imgSetWidthHeightHandler, hcam, hwidth, hheight]
  · simp only [imgLedHandler, hcam, hmode]
  · simp only [imgResetHandler, hcam]
  · simp only [imgSetExposureHandler, hcam, hexposure]
  · simp only [imgSetGainHandler, hcam, hgain]
  · simp only [imgSetLtHandler, hcam, ha2, ha3]

/-- Claim C4 as amended, on a 64-bit platform: the text `abc` is a syntax
error with value 0 and the request is served like exposure `0`; the text
`-9223372036854775809` is a range error with the smallest `int`, the text
`99999999999999999999` a range error with the largest. -/
theorem parse_failure_values_witness :
    (Atoi 64 (ascii "abc")).2 = some NumError.ErrSyntax ∧ (Atoi 64 (ascii "abc")).1 = 0 ∧
    imgSetExposureHandler 64 sampleDriver badExposureRequest =
      imgSetExposureHandler 64 sampleDriver zeroExposureRequest ∧
    imgSetExposureHandler 64 sampleDriver zeroExposureRequest =
      ⟨[⟨"img_set_exp", [Arg.word 1, Arg.word 0]⟩], Outcome.response ⟨200, [], []⟩⟩ ∧
    (Atoi 64 (ascii "-9223372036854775809")).2 = some NumError.ErrRange ∧
    (Atoi 64 (ascii "-9223372036854775809")).1 = -9223372036854775808 ∧
    (Atoi 64 (ascii "99999999999999999999")).2 = some NumError.ErrRange ∧
    (Atoi 64 (ascii "99999999999999999999")).1 = 9223372036854775807 :=
  have h := parse_failure_values 64 (Or.inr rfl) plainCodec sampleDriver ""
    badExposureRequest zeroExposureRequest (by decide)
  ⟨by decide, h.1 (ascii "abc") (by decide), h.2.2.2.2.2.2.2.1, by decide,
    by decide, (h.2.1 (ascii "-9223372036854775809") (by decide) (by decide)).trans (by decide),
    by decide, (h.2.2.1 (ascii "99999999999999999999") (by decide) (by decide)).trans (by decide)⟩

/-- Claim C6: `initializeCameras` aborts startup if and only if the count `n`
returned by `imgInit` is below 2; for `n` at least 2 it does not abort and
returns `n` unchanged. -/
theorem startup_aborts_iff_few_cameras (bits : Nat) (d : Driver) (n : Int)
    (hn : (imgInit bits d).result = n) :
    ((initializeCameras bits d).2 = Startup.fatal ↔ n < 2) ∧
    (2 ≤ n → (initializeCameras bits d).2 = Startup.returned n) := by
  subst hn
  unfold initializeCameras
  dsimp only
  constructor
  · split_ifs with h
    · simp [h]
    · simp [h]
  · intro h2
    rw [if_neg (by omega)]

/-- Claim C6 at concrete drivers: one camera aborts, seven are returned. -/
theorem startup_aborts_iff_few_cameras_witness :
    (imgInit 64 oneCameraDriver).result = 1 ∧
    (initializeCameras 64 oneCameraDriver).2 = Startup.fatal ∧
    (imgInit 64 sampleDriver).result = 7 ∧
    (initializeCameras 64 sampleDriver).2 = Startup.returned 7 :=
  ⟨by decide,
    (startup_aborts_iff_few_cameras 64 oneCameraDriver 1 (by decide)).1.2 (by decide),
    by decide,
    (startup_aborts_iff_few_cameras 64 sampleDriver 7 (by decide)).2 (by decide)⟩

/-- Claim C7: the outcome of a handler does not depend on the word the
driver call returns.  For two drivers that store the same bytes in the frame
buffer and return whatever they like, every handler gives the same outcome
on the same request; for the frame handler, whose response carries the time
of the run, the outcomes agree once the `Last-Modified` header is left out. -/
theorem response_independent_of_driver_result (bits : Nat) (codec : PngCodec)
    (d1 d2 : Driver) (now1 now2 : String) (vars : Vars) (hfill : d1.fill = d2.fill) :
    (imgReadAsyHandler bits codec d1 now1 vars).outcome.without "Last-Modified" =
      (imgReadAsyHandler bits codec d2 now2 vars).outcome.without "Last-Modified" ∧
    (imgSetWidthHeightHandler bits d1 vars).outcome =
      (imgSetWidthHeightHandler bits d2 vars).outcome ∧
    (imgLedHandler bits d1 vars).outcome = (imgLedHandler bits d2 vars).outcome ∧
    (imgResetHandler bits d1 vars).outcome = (imgResetHandler bits d2 vars).outcome ∧
    (imgSetExposureHandler bits d1 vars).outcome =
      (imgSetExposureHandler bits d2 vars).outcome ∧
    (imgSetGainHandler bits d1 vars).outcome = (imgSetGainHandler bits d2 vars).outcome ∧
    (imgSetLtHandler bits d1 vars).outcome = (imgSetLtHandler bits d2 vars).outcome := by
  refine ⟨?_, ?_, ?_, ?_, ?_, ?_, ?_⟩
  · unfold imgReadAsyHandler
    dsimp only
    cases isValidCamera (Atoi bits (vars "cameraId")).1 with
    | false => rfl
    | true =>
      simp only [Bool.not_true, Bool.false_eq_true, if_false]
      by_cases hn : 1 ≤ wrapInt bits ((Atoi bits (vars "width")).1 * (Atoi bits (vars "height")).1)
          ∧ wrapInt bits ((Atoi bits (vars "width")).1 * (Atoi bits (vars "height")).1) ≤
            maxAlloc bits
      · rw [imgReadAsy_of_pos bits codec d1 _ _ _ _ hn.1 hn.2,
          imgReadAsy_of_pos bits codec d2 _ _ _ _ hn.1 hn.2]
        simp only [bufferAfter, hfill]
        cases encodeFrame bits codec _ _ _ with
        | error p => rfl
        | ok png =>
          simp [Except.map, Outcome.without, ResponseWriter.Set, ResponseWriter.new,
            ResponseWriter.Write, ResponseWriter.WriteHeader, ResponseWriter.finish]
      · by_cases hz : wrapInt bits
            ((Atoi bits (vars "width")).1 * (Atoi bits (vars "height")).1) = 0
        · rw [imgReadAsy_of_zero bits codec d1 _ _ _ _ hz,
            imgReadAsy_of_zero bits codec d2 _ _ _ _ hz]
        · rw [imgReadAsy_of_no_buffer bits codec d1 _ _ _ _ (by omega),
            imgReadAsy_of_no_buffer bits codec d2 _ _ _ _ (by omega)]
  · unfold imgSetWidthHeightHandler; dsimp only; split_ifs <;> rfl
  · unfold imgLedHandler; dsimp only; split_ifs <;> rfl
  · unfold imgResetHandler; dsimp only; split_ifs <;> rfl
  · unfold imgSetExposureHandler; dsimp only; split_ifs <;> rfl
  · unfold imgSetGainHandler; dsimp only; split_ifs <;> rfl
  · unfold imgSetLtHandler; dsimp only; split_ifs <;> rfl

/-- Claim C7 at concrete drivers: one returns 7, the other 0, both write the
same frame; the frame responses agree apart from the time stamp and the
responses of the setting handler agree. -/
theorem response_independent_of_driver_result_witness :
    sampleDriver.ret ⟨"img_led", []⟩ ≠ failingDriver.ret ⟨"img_led", []⟩ ∧
    (imgReadAsyHandler 64 plainCodec sampleDriver "Thu, 01 Jan 2026 00:00:00 GMT"
        fullRequest).outcome.without "Last-Modified" =
      (imgReadAsyHandler 64 plainCodec failingDriver "Fri, 02 Jan 2026 00:00:00 GMT"
        fullRequest).outcome.without "Last-Modified" ∧
    (imgLedHandler 64 sampleDriver fullRequest).outcome =
      (imgLedHandler 64 failingDriver fullRequest).outcome :=
  have h := response_independent_of_driver_result 64 plainCodec sampleDriver failingDriver
    "Thu, 01 Jan 2026 00:00:00 GMT" "Fri, 02 Jan 2026 00:00:00 GMT" fullRequest rfl
  ⟨by decide, h.1, h.2.2.1⟩

/-- Claim C9: the effects of `initializeCameras` are, in this order, one sleep
of exactly 5 * 10^9 nanoseconds and one driver call `img_init`; no driver call
comes before the sleep. -/
theorem startup_sleeps_then_inits (bits : Nat) (d : Driver) :
    (initializeCameras bits d).1 =
      [Event.sleep (5 * 10 ^ 9), Event.call ⟨"img_init", []⟩] := by
  have hs : wrapInt 64 (5 * Second) = 5 * 10 ^ 9 := by decide
  unfold initializeCameras
  dsimp only
  rw [hs]
  split_ifs <;> rfl

end GoNeoCam
